import Mathlib

/-!
Shallow embedding of `src/ytanalysis.py` (YouTube ad-quality analyzer).

Conventions used throughout:
* Python floats are modelled by `PyFloat`: finite values as exact rationals
  (`Rat`), plus the two infinities and NaN; `int(x)` is truncation toward
  zero (`pyTrunc`), and Python `//` / `%` on a positive divisor agree with
  Lean `Int` division/modulo (Euclidean), which is what the code uses.
  Double rounding of finite values is not modelled (`Rat` is exact).
* Fallible Python code (code that can raise) is modelled with `Except String`
  where the string stands for the exception text; `Option` models values that
  may be `None`.
* JSON values are modelled by the inductive `Json`; the bytes of a file or an
  HTTP body are modelled by `JsonText`, which is either a well-formed JSON
  value or malformed text on which `json.load` / `response.json()` raises.
* The remote captioning service, the remote metadata service and the hosted
  language model are oracles passed as explicit arguments.
-/

/-- Model of a Python value fed to `format_time` (line 33): a number
(int or float), a string, or `None`. -/
inductive PyVal where
  | num (q : Rat)
  | str (s : String)
  | noneV
deriving DecidableEq

/-- Value of a list of decimal digit characters, most significant first. -/
def digitsVal (cs : List Char) : Nat :=
  cs.foldl (fun acc c => acc * 10 + (c.toNat - 48)) 0

/-- A Python float value: a finite number (idealized as an exact rational),
one of the two infinities, or NaN. -/
inductive PyFloat where
  | finite (q : Rat)
  | inf
  | negInf
  | nan
deriving DecidableEq

/-- Negation of a Python float (the effect of a leading `-` sign). -/
def PyFloat.neg : PyFloat → PyFloat
  | .finite q => .finite (-q)
  | .inf => .negInf
  | .negInf => .inf
  | .nan => .nan

/-- A run of ASCII digits in which single underscores may appear between two
digits (PEP 515), continuing an already-started run; returns the digits with
underscores removed and the unconsumed rest.  A trailing or doubled
underscore ends the run before the underscore, leaving it unconsumed (so the
overall literal is then rejected, as Python does). -/
def digitRunTail : List Char → List Char × List Char
  | [] => ([], [])
  | c :: cs =>
      if c.isDigit then
        let p := digitRunTail cs
        (c :: p.1, p.2)
      else if c = '_' ∧ cs.head?.any Char.isDigit then
        digitRunTail cs
      else ([], c :: cs)

/-- A non-empty underscore-grouped digit run: a digit followed by
`digitRunTail`; `none` when the input does not start with a digit. -/
def digitRun : List Char → Option (List Char × List Char)
  | c :: cs =>
      if c.isDigit then
        let p := digitRunTail cs
        some (c :: p.1, p.2)
      else Option.none
  | [] => Option.none

/-- The smallest magnitude at which a decimal literal overflows a double:
Python `float(str)` silently returns infinity past double range.  `2 ^ 1024`
is the exact power-of-two bound just above the largest finite double (the
few representable values between `DBL_MAX` and `2 ^ 1024` round to infinity
as well; that sliver of rounding behavior is not modelled, consistent with
the file-wide idealization of floats as exact rationals). -/
def dblOverflow : Rat := (2 : Rat) ^ 1024

/-- Classify a non-negative parsed magnitude: past double range it becomes
infinity, otherwise a finite value. -/
def overflowCheck (q : Rat) : PyFloat :=
  if dblOverflow ≤ q then PyFloat.inf else PyFloat.finite q

/-- The syntactic parts of an unsigned decimal float literal: integer-part
digits, fraction digits (both with underscores already removed), and the
signed exponent (`0` when absent). -/
structure DecParts where
  ip : List Char
  fp : List Char
  exp : Int
deriving DecidableEq

/-- The grammar of an unsigned decimal literal in Python `float(str)`
syntax: `digits [. digits] [(e | E) [+ | -] digits]` with underscore digit
grouping, needing at least one digit in the integer or fraction part and no
trailing junk.  Pure syntax: returns the parts, or `none` where Python
raises `ValueError`. -/
def parseParts (cs : List Char) : Option DecParts :=
  let ipr : List Char × List Char :=
    match digitRun cs with
    | some p => p
    | Option.none => ([], cs)
  let fpr : List Char × List Char :=
    match ipr.2 with
    | '.' :: r =>
        (match digitRun r with
         | some p => p
         | Option.none => (([] : List Char), r))
    | _ => ([], ipr.2)
  let er : Option (Int × List Char) :=
    match fpr.2 with
    | 'e' :: '+' :: r => (digitRun r).map (fun p => ((digitsVal p.1 : Int), p.2))
    | 'e' :: '-' :: r => (digitRun r).map (fun p => (-(digitsVal p.1 : Int), p.2))
    | 'e' :: r => (digitRun r).map (fun p => ((digitsVal p.1 : Int), p.2))
    | 'E' :: '+' :: r => (digitRun r).map (fun p => ((digitsVal p.1 : Int), p.2))
    | 'E' :: '-' :: r => (digitRun r).map (fun p => (-(digitsVal p.1 : Int), p.2))
    | 'E' :: r => (digitRun r).map (fun p => ((digitsVal p.1 : Int), p.2))
    | r => some (0, r)
  match er with
  | Option.none => Option.none
  | some (e, rest) =>
      if rest = [] ∧ (ipr.1 ≠ [] ∨ fpr.1 ≠ []) then some ⟨ipr.1, fpr.1, e⟩
      else Option.none

/-- The numeric value denoted by parsed literal parts:
`(intpart + fracpart / 10 ^ fracdigits) * 10 ^ exponent`. -/
def partsVal (p : DecParts) : Rat :=
  let mant : Rat := (digitsVal p.ip : Rat) + (digitsVal p.fp : Rat) / (10 : Rat) ^ p.fp.length
  if 0 ≤ p.exp then mant * (10 : Rat) ^ p.exp.toNat else mant / (10 : Rat) ^ (-p.exp).toNat

/-- An unsigned decimal literal in Python `float(str)` syntax: parse the
parts, take their value, and overflow past double range to infinity. -/
def parseDec (cs : List Char) : Option PyFloat :=
  (parseParts cs).map (fun p => overflowCheck (partsVal p))

/-- The part of a `float(str)` literal after the optional sign: the special
spellings `inf`, `infinity` and `nan` case-insensitively, or an unsigned
decimal literal. -/
def parseBody (cs : List Char) : Option PyFloat :=
  let low := cs.map Char.toLower
  if low = ("inf").toList ∨ low = ("infinity").toList then some PyFloat.inf
  else if low = ("nan").toList then some PyFloat.nan
  else parseDec cs

/-- Strip whitespace from both ends of a character list (the whitespace
stripping `float(str)` performs; ASCII whitespace only — the extra Unicode
space code points Python also strips are not modelled). -/
def stripWS (cs : List Char) : List Char :=
  ((cs.dropWhile Char.isWhitespace).reverse.dropWhile Char.isWhitespace).reverse

/-- Python `float(str)`: strip surrounding whitespace, then an optional sign
and a literal body.  `none` where Python raises `ValueError`.  (ASCII digits
only: the Unicode-decimal-digit normalization Python applies first is not
modelled.) -/
def parseDecimal (s : String) : Option PyFloat :=
  match stripWS s.toList with
  | '-' :: cs => (parseBody cs).map PyFloat.neg
  | '+' :: cs => parseBody cs
  | cs => parseBody cs

/-- Python `float(x)` on a number, a string or `None`: `none` models the
`ValueError` / `TypeError` caught by `format_time`.  A numeric argument is
modelled as a finite value (caption starts and arithmetic on them never
produce infinity or NaN in this program). -/
def pyFloat? : PyVal → Option PyFloat
  | .num q => some (.finite q)
  | .str s => parseDecimal s
  | .noneV => Option.none

/-- Python `int(x)` on a float: truncation toward zero. -/
def pyTrunc (q : Rat) : Int :=
  if 0 ≤ q then ⌊q⌋ else -⌊-q⌋

/-- Python `f"{n:02}"` for a non-negative value: zero-pad to two digits. -/
def pad2 (n : Nat) : String :=
  if n < 10 then "0" ++ toString n else toString n

/-- Body of `format_time` after the `float` conversion succeeded
(lines 37-44).  `hours`, `minutes`, `secs` follow the source exactly;
`minutes` and `secs` are non-negative because the divisor of `%` is
positive, so rendering through `pad2` on `toNat` is faithful, and
`f"{hours:01}"` is plain decimal rendering. -/
def renderSeconds (t : Int) : String :=
  let hours : Int := t / 3600
  let minutes : Int := (t % 3600) / 60
  let secs : Int := t % 60
  if 0 < hours then toString hours ++ ":" ++ pad2 minutes.toNat ++ ":" ++ pad2 secs.toNat
  else pad2 minutes.toNat ++ ":" ++ pad2 secs.toNat

/-- `format_time` (lines 33-46): convert to float, truncate with `int`,
render `H:MM:SS` when at least one hour else `MM:SS`.  The `except` clause
catches only `ValueError` and `TypeError`: a failed `float` conversion
raises `ValueError`/`TypeError` (caught, `"N/A"`), `int(nan)` raises
`ValueError` (caught, `"N/A"`), but `int` of an infinite float raises
`OverflowError`, which is NOT caught and propagates out of the function. -/
def format_time (v : PyVal) : Except String String :=
  match pyFloat? v with
  | some (.finite q) => .ok (renderSeconds (pyTrunc q))
  | some .inf => .error "OverflowError: cannot convert float infinity to integer"
  | some .negInf => .error "OverflowError: cannot convert float infinity to integer"
  | some .nan => .ok "N/A"
  | Option.none => .ok "N/A"

/-- `format_time` specialized to an actual (finite) number argument, where
the float conversion trivially succeeds and the function cannot raise:
`format_time (.num q) = .ok (format_time_num q)` holds definitionally.
This is the only shape in which the prompt construction (lines 102 and 110)
invokes it, caption starts being finite JSON numbers. -/
def format_time_num (q : Rat) : String :=
  renderSeconds (pyTrunc q)

/-- Clock rendering as the spec describes it (section 4.2, long form):
unpadded hours plus zero-padded minutes and seconds when the duration is at
least one hour, zero-padded `MM:SS` otherwise.  Spec-side comparison
definition for the refinement claim about `format_time`. -/
def clockRenderSpec (n : Nat) : String :=
  if 3600 ≤ n then
    toString (n / 3600) ++ ":" ++ pad2 (n % 3600 / 60) ++ ":" ++ pad2 (n % 60)
  else pad2 (n / 60) ++ ":" ++ pad2 (n % 60)

/-- Character class `[0-9A-Za-z_-]` of the video-id regex (line 29). -/
def isTokenChar (c : Char) : Bool :=
  c.isAlphanum || c = '_' || c = '-'

/-- Try to read the 11-character capture group `([0-9A-Za-z_-]{11})`
at the head of `rest`. -/
def tryTok (rest : List Char) : Option (List Char) :=
  let tok := rest.take 11
  if tok.length = 11 ∧ tok.all isTokenChar then some tok else Option.none

/-- One attempt of the regex `(?:v=|\/)([0-9A-Za-z_-]{11})` anchored at the
current position: alternative `v=` first, then `/`, as `re` does. -/
def matchAt : List Char → Option (List Char)
  | [] => Option.none
  | c :: tl =>
      if c = 'v' ∧ tl.head? = some '=' then tryTok tl.tail
      else if c = '/' then tryTok tl
      else Option.none

/-- `re.search`: try the pattern at each position left to right and return
the first capture. -/
def searchFrom : List Char → Option (List Char)
  | [] => Option.none
  | c :: tl =>
      match matchAt (c :: tl) with
      | some tok => some tok
      | Option.none => searchFrom tl

/-- `extract_video_id` (lines 28-31): first regex match of
`(?:v=|\/)([0-9A-Za-z_-]{11})`, or `None`. -/
def extract_video_id (s : String) : Option String :=
  (searchFrom s.toList).map (fun tok => String.mk tok)

/-- An 11-character run of `[0-9A-Za-z_-]` characters. -/
def tokOk (tok : List Char) : Prop :=
  tok.length = 11 ∧ tok.all isTokenChar = true

/-- The character list `l` contains the qualifying token `tok` immediately
after `v=` or after a path separator `/` (the property quantified over by
the spec). -/
def Qual (l tok : List Char) : Prop :=
  tokOk tok ∧
    ∃ pre suf, l = pre ++ 'v' :: '=' :: (tok ++ suf) ∨ l = pre ++ '/' :: (tok ++ suf)

/-- JSON value, the image of Python objects under `json.loads` /
`json.load`. -/
inductive Json where
  | null
  | bool (b : Bool)
  | num (q : Rat)
  | str (s : String)
  | arr (xs : List Json)
  | obj (fields : List (String × Json))

/-- Key lookup in a JSON object, first binding wins (Python dict keys are
unique, so this is exact). -/
def getField? : List (String × Json) → String → Option Json
  | [], _ => Option.none
  | (k, v) :: rest, key => if k = key then some v else getField? rest key

/-- Field access on a JSON value, `none` off objects or for absent keys. -/
def jsonGet (j : Json) (key : String) : Option Json :=
  match j with
  | .obj fs => getField? fs key
  | _ => Option.none

/-- Python truthiness of a decoded JSON value (`if cached_transcript:`,
line 73): empty containers, zero, the empty string, `False` and `None`
are falsy. -/
def jsonTruthy : Json → Bool
  | .null => false
  | .bool b => b
  | .num q => q != 0
  | .str s => !s.isEmpty
  | .arr xs => !xs.isEmpty
  | .obj fs => !fs.isEmpty

/-- One caption line kept by this system: a start offset in seconds and
text (spec section 3). -/
structure CaptionEntry where
  start : Rat
  text : String
deriving DecidableEq

/-- The Python object `{"start": entry["start"], "text": entry["text"]}`
as JSON. -/
def encodeEntry (e : CaptionEntry) : Json :=
  .obj [("start", .num e.start), ("text", .str e.text)]

/-- The transcript list built at line 78, as the JSON array that
`json.dump` writes. -/
def encodeDoc (t : List CaptionEntry) : Json :=
  .arr (t.map encodeEntry)

/-- Read a `{start, text}` object back as a `CaptionEntry`. -/
def decodeEntry (j : Json) : Option CaptionEntry :=
  match j with
  | .obj [(k₁, .num q), (k₂, .str s)] =>
      if k₁ = "start" ∧ k₂ = "text" then some ⟨q, s⟩ else Option.none
  | _ => Option.none

/-- Decode every element of a JSON array as a caption entry. -/
def decodeEntries : List Json → Option (List CaptionEntry)
  | [] => some []
  | j :: js =>
      match decodeEntry j, decodeEntries js with
      | some e, some es => some (e :: es)
      | _, _ => Option.none

/-- Read a cached JSON value back as an ordered sequence of caption
entries. -/
def decodeDoc : Json → Option (List CaptionEntry)
  | .arr xs => decodeEntries xs
  | _ => Option.none

/-- Contents of a file (or HTTP body) that is expected to hold JSON:
either a well-formed JSON value, or malformed text on which the JSON
decoder raises. -/
inductive JsonText where
  | wellFormed (j : Json)
  | malformed (raw : String)

/-- The on-disk cache directory: one optional file per video id
(`cached_transcripts/{videoId}.json`). -/
abbrev Store := String → Option JsonText

/-- `save_transcript` (lines 59-62): `json.dump` the document into the file
keyed by the video id, overwriting any prior entry. -/
def save_transcript (st : Store) (vid : String) (doc : Json) : Store :=
  fun v => if v = vid then some (.wellFormed doc) else st v

/-- `load_transcript` (lines 64-69): `None` when the file does not exist,
the decoded JSON when it does, and a propagated `JSONDecodeError` when the
file exists but is not valid JSON (`json.load` raises; nothing catches
it). -/
def load_transcript (st : Store) (vid : String) : Except String (Option Json) :=
  match st vid with
  | Option.none => .ok Option.none
  | some (.wellFormed j) => .ok (some j)
  | some (.malformed raw) => .error ("JSONDecodeError: " ++ raw)

/-- A raw entry from the remote captioning service
(`YouTubeTranscriptApi.get_transcript`): carries `start`, `duration` and
`text`; the code keeps only `start` and `text`. -/
structure RawEntry where
  start : Rat
  duration : Rat
  text : String

/-- The projection `{"start": entry["start"], "text": entry["text"]}` at
line 78. -/
def projectEntry (e : RawEntry) : CaptionEntry :=
  ⟨e.start, e.text⟩

/-- Result of one `get_transcript` call: the cache store after the call,
the returned document (as JSON), the returned error string, and how many
times the remote captioning service was invoked. -/
structure GetResult where
  store : Store
  doc : Option Json
  err : Option String
  fetches : Nat

/-- The `try` block of `get_transcript` (lines 76-82): call the remote
service once; on success project, save and return the document; on any
exception return `(None, f"Error: {str(e)}")` without touching the
cache. -/
def fetch_remote (remote : String → Except String (List RawEntry))
    (st : Store) (vid : String) : GetResult :=
  match remote vid with
  | .ok entries =>
      let doc := encodeDoc (entries.map projectEntry)
      ⟨save_transcript st vid doc, some doc, Option.none, 1⟩
  | .error e => ⟨st, Option.none, some ("Error: " ++ e), 1⟩

/-- `get_transcript` (lines 71-82): consult the cache first; a truthy
cached value is returned with no remote call; a missing file or a falsy
cached value falls through to the remote fetch; a corrupt cache file makes
`load_transcript` raise, which propagates. -/
def get_transcript (remote : String → Except String (List RawEntry))
    (st : Store) (vid : String) : Except String GetResult :=
  match load_transcript st vid with
  | .error e => .error e
  | .ok (some j) =>
      if jsonTruthy j then .ok ⟨st, some j, Option.none, 0⟩
      else .ok (fetch_remote remote st vid)
  | .ok Option.none => .ok (fetch_remote remote st vid)

/-- An HTTP response from the metadata service: status code plus body
bytes (modelled as possibly-malformed JSON). -/
structure HttpResponse where
  status : Nat
  body : JsonText

/-- Substring test on character lists (Python `in` on strings). -/
def containsSub : List Char → List Char → Bool
  | [], pat => pat.isEmpty
  | c :: tl, pat => pat.isPrefixOf (c :: tl) || containsSub tl pat

/-- Python `key in j` for a decoded JSON value: key membership on dicts,
element membership on lists (string equality only, since the key is a
string), substring test on strings, `TypeError` otherwise. -/
def pyIn (key : String) : Json → Except String Bool
  | .obj fs => .ok (getField? fs key).isSome
  | .arr xs =>
      .ok (xs.any (fun x => match x with | .str t => t = key | _ => false))
  | .str s => .ok (containsSub s.toList key.toList)
  | _ => .error ("TypeError: argument is not iterable")

/-- Python `j[key]` for a string key: dict lookup (`KeyError` when absent),
`TypeError` on any non-dict. -/
def pySubscript (j : Json) (key : String) : Except String Json :=
  match j with
  | .obj fs =>
      match getField? fs key with
      | some v => .ok v
      | Option.none => .error ("KeyError: " ++ key)
  | _ => .error ("TypeError: indices must be integers")

/-- Python `len(j)`: length of lists, dicts and strings, `TypeError`
otherwise. -/
def pyLen (j : Json) : Except String Nat :=
  match j with
  | .arr xs => .ok xs.length
  | .obj fs => .ok fs.length
  | .str s => .ok s.length
  | _ => .error ("TypeError: object has no len")

/-- Python `j[0]`: head of a list, first character of a string,
`KeyError` on dicts (integer key absent), `TypeError` otherwise. -/
def pyIndex0 (j : Json) : Except String Json :=
  match j with
  | .arr (x :: _) => .ok x
  | .arr [] => .error ("IndexError: list index out of range")
  | .str s =>
      match s.toList with
      | c :: _ => .ok (.str (String.mk [c]))
      | [] => .error ("IndexError: string index out of range")
  | .obj _ => .error ("KeyError: 0")
  | _ => .error ("TypeError: object is not subscriptable")

/-- `get_video_details` (lines 48-57), given the HTTP response of the
metadata service as an oracle value.  A network-level failure of
`requests.get` itself is outside the model (the response is an input).
Mirrors the source: only a 200 status reads the body; the guard is
`"items" in data and len(data["items"]) > 0`; inside the guard the code
chains `data["items"][0]["snippet"]["title"]` / `["channelTitle"]`, whose
failures propagate; every fall-through returns the placeholder pair. -/
def get_video_details (resp : HttpResponse) : Except String (Json × Json) :=
  if resp.status = 200 then
    match resp.body with
    | .malformed raw => .error ("JSONDecodeError: " ++ raw)
    | .wellFormed data =>
      match pyIn "items" data with
      | .error e => .error e
      | .ok false => .ok (.str "Unknown Title", .str "Unknown Channel")
      | .ok true =>
        match pySubscript data "items" with
        | .error e => .error e
        | .ok items =>
          match pyLen items with
          | .error e => .error e
          | .ok n =>
            if 0 < n then
              match pyIndex0 items with
              | .error e => .error e
              | .ok first =>
                match pySubscript first "snippet" with
                | .error e => .error e
                | .ok snippet =>
                  match pySubscript snippet "title", pySubscript snippet "channelTitle" with
                  | .error e, _ => .error e
                  | .ok _, .error e => .error e
                  | .ok title, .ok channel => .ok (title, channel)
            else .ok (.str "Unknown Title", .str "Unknown Channel")
  else .ok (.str "Unknown Title", .str "Unknown Channel")

/-- Python `"\n".join`. -/
def joinLines : List String → String
  | [] => ""
  | [x] => x
  | x :: xs => x ++ "\n" ++ joinLines xs

/-- The timestamped transcript block (lines 101-103): one line
`[formatted-start] text` per entry, newline-joined. -/
def transcript_formatted (t : List CaptionEntry) : String :=
  joinLines (t.map (fun e => "[" ++ format_time_num e.start ++ "] " ++ e.text))

/-- Template text of the prompt f-string before `{video_id}`
(lines 105-109). -/
def promptPart1 : String :=
  "\n    You are an expert in analyzing YouTube ad integrations in videos of all lengths.\n\n    **Video Info:**\n    - Video ID: "

/-- Template text between `{video_id}` and the estimated-length value
(line 110). -/
def promptPart2 : String :=
  "\n    - Estimated video length: "

/-- Template text between the estimated-length value and
`{transcript_formatted}` (lines 111-127). -/
def promptPart3 : String :=
  "\n    \n    **Extract the Ad Segment and Evaluate its Quality**:\n    - Carefully analyze the entire transcript to find where the creator is advertising a product or service.\n    - Identify the **exact ad start & end timestamps** (in the format shown in the transcript).\n    - Make sure your timestamps are accurate for this possibly hour-length video.\n    - Detect the **product name** being advertised.\n    - Provide a **single Overall Ad Score (1-10)** with a **one-line explanation**.\n    - Evaluate the ad using **five key metrics** with **scores (1-10) + short explanations**:\n      1. **Ad Naturalness**\n      2. **Persuasiveness**\n      3. **Trustworthiness**\n      4. **Ad Length & Placement**\n      5. **Engagement**\n\n    **Transcript:**\n    ```\n    "

/-- Template text after `{transcript_formatted}`: the closing fence and the
JSON output schema (lines 128-143). -/
def promptPart4 : String :=
  "\n    ```\n\n    **Output (JSON Format)**:\n    \x7b\n      \"product_name\": \"Detected Product\",\n      \"start_time\": \"HH:MM:SS or MM:SS format matching transcript\",\n      \"end_time\": \"HH:MM:SS or MM:SS format matching transcript\",\n      \"overall_score\": 0-10,\n      \"overall_summary\": \"One-line summary for overall score\",\n      \"ad_naturalness\": \x7b\"score\": 0-10, \"explanation\": \"1-2 line reason\"\x7d,\n      \"persuasiveness\": \x7b\"score\": 0-10, \"explanation\": \"1-2 line reason\"\x7d,\n      \"trustworthiness\": \x7b\"score\": 0-10, \"explanation\": \"1-2 line reason\"\x7d,\n      \"ad_length_placement\": \x7b\"score\": 0-10, \"explanation\": \"1-2 line reason\"\x7d,\n      \"engagement\": \x7b\"score\": 0-10, \"explanation\": \"1-2 line reason\"\x7d\n    \x7d\n    "

/-- The estimated-length display (lines 88-99 and 110): last caption start
plus five seconds, formatted; `"unknown"` only when the transcript is
empty (the float conversion of a model start value always succeeds). -/
def lengthDisplay (t : List CaptionEntry) : String :=
  match t.getLast? with
  | some e => format_time_num (e.start + 5)
  | Option.none => "unknown"

/-- The full prompt f-string of `analyze_ad_quality` (lines 105-143). -/
def build_prompt (vid : String) (t : List CaptionEntry) : String :=
  promptPart1 ++ vid ++ promptPart2 ++ lengthDisplay t ++ promptPart3 ++
    transcript_formatted t ++ promptPart4

/-- A raw model response, abstracted at the JSON decoder boundary:
`json j` stands for any raw text whose fence-stripped content
`json.loads` decodes to `j` (lines 147-148); `malformed raw` for text on
which `json.loads` raises `JSONDecodeError`. -/
inductive ModelResponse where
  | json (j : Json)
  | malformed (raw : String)

/-- The response-handling tail of `analyze_ad_quality` (lines 145-156):
a decoded response is returned as `ad_data` unchanged; a decode failure is
reported via `st.error` and the function returns `None`. -/
def parse_response : ModelResponse → Option Json
  | .json j => some j
  | .malformed _ => Option.none

/-- `analyze_ad_quality` (lines 84-156) with the hosted model as an
oracle from prompt text to response:
an empty (falsy) transcript returns `None` at line 87; otherwise the
prompt is built, sent, and the response handled by `parse_response`. -/
def analyze_ad_quality (genModel : String → ModelResponse)
    (t : List CaptionEntry) (vid : String) : Option Json :=
  if t.isEmpty then Option.none
  else parse_response (genModel (build_prompt vid t))

/-- The required keys of an `AdAnalysisResult`.  Modelled from the spec:
the source performs no key validation, so this list exists only to state
the claim (spec sections 3 and 4.6). -/
def requiredKeys : List String :=
  ["product_name", "start_time", "end_time", "overall_score", "overall_summary",
   "ad_naturalness", "persuasiveness", "trustworthiness", "ad_length_placement",
   "engagement"]

/-- Whether a JSON value is an object carrying every required
`AdAnalysisResult` key.  Spec-side comparison definition. -/
def hasAllRequired (j : Json) : Bool :=
  match j with
  | .obj fs => requiredKeys.all (fun k => (getField? fs k).isSome)
  | _ => false

/-- The strings `xs` occur in `s`, in order, as disjoint substrings. -/
def containsInOrder (s : String) : List String → Prop
  | [] => True
  | x :: xs => ∃ pre rest, s = pre ++ x ++ rest ∧ containsInOrder rest xs

/-- A cache store holding an empty (falsy) transcript document for one
video id. -/
def c1Store : Store :=
  fun v => if v = "dQw4w9WgXcQ" then some (.wellFormed (.arr [])) else Option.none

/-- A remote captioning oracle that returns one caption entry. -/
def c1Remote : String → Except String (List RawEntry) :=
  fun _ => .ok [⟨0, 2, "hello"⟩]

theorem decodeEntry_encodeEntry (e : CaptionEntry) :
    decodeEntry (encodeEntry e) = some e := by
  cases e with
  | mk q s => simp [decodeEntry, encodeEntry]

theorem decodeEntries_map (t : List CaptionEntry) :
    decodeEntries (t.map encodeEntry) = some t := by
  induction t with
  | nil => rfl
  | cons e es ih => simp [decodeEntries, decodeEntry_encodeEntry, ih]

/-- Claim C3: for every video identifier and transcript document, saving the
document and then loading it for the same identifier yields exactly the saved
JSON array, and that array decodes back to the identical ordered sequence of
caption entries (save/load round-trip identity). -/
theorem save_load_roundtrip (st : Store) (vid : String) (t : List CaptionEntry) :
    load_transcript (save_transcript st vid (encodeDoc t)) vid = .ok (some (encodeDoc t)) ∧
    decodeDoc (encodeDoc t) = some t := by
  constructor
  · simp [load_transcript, save_transcript]
  · simp [decodeDoc, encodeDoc, decodeEntries_map]

/-- Claim C6: loading a video identifier that was never saved returns the
absent signal without raising, while loading an identifier whose cache file
exists but holds invalid JSON propagates a hard error instead of being
silently treated as absent. -/
theorem load_transcript_missing_and_corrupt :
    (∀ (st : Store) (vid : String), st vid = Option.none →
      load_transcript st vid = .ok Option.none) ∧
    (∀ (st : Store) (vid raw : String), st vid = some (.malformed raw) →
      ∃ e, load_transcript st vid = .error e) := by
  constructor
  · intro st vid h
    simp [load_transcript, h]
  · intro st vid raw h
    exact ⟨"JSONDecodeError: " ++ raw, by simp [load_transcript, h]⟩

theorem load_transcript_missing_and_corrupt_witness :
    load_transcript (fun _ => Option.none) "abc" = .ok Option.none ∧
    ∃ e, load_transcript
        (fun v => if v = "abc" then some (.malformed "oops") else Option.none) "abc" =
      .error e :=
  ⟨load_transcript_missing_and_corrupt.1 _ "abc" rfl,
   load_transcript_missing_and_corrupt.2 _ "abc" "oops" (by simp)⟩

/-- Claim C1 (amended): for every video identifier whose cached document is
truthy (in particular any non-empty caption array), `get_transcript` returns
that cached document, reports no error, leaves the cache store untouched and
performs zero remote fetches.  (The unamended claim fails for an empty cached
document, which Python truthiness treats as a cache miss.) -/
theorem get_transcript_cache_hit (remote : String → Except String (List RawEntry))
    (st : Store) (vid : String) (j : Json)
    (hc : st vid = some (.wellFormed j)) (ht : jsonTruthy j = true) :
    get_transcript remote st vid = .ok ⟨st, some j, Option.none, 0⟩ := by
  simp [get_transcript, load_transcript, hc, ht]

theorem get_transcript_cache_hit_witness :
    get_transcript (fun _ => .error "net")
      (fun v => if v = "abcdefghijk" then some (.wellFormed (.arr [.num 1])) else Option.none)
      "abcdefghijk" =
    .ok ⟨(fun v => if v = "abcdefghijk" then some (.wellFormed (.arr [.num 1])) else Option.none),
         some (.arr [.num 1]), Option.none, 0⟩ :=
  get_transcript_cache_hit _ _ _ _ (by simp) (by rfl)

/-- Claim C1 fails as stated: here a cached transcript document exists for the
identifier (the empty caption array), yet `get_transcript` invokes the remote
captioning service once and returns the freshly fetched document instead of
the cached one. -/
theorem get_transcript_cached_empty_refetch :
    c1Store "dQw4w9WgXcQ" = some (.wellFormed (.arr [])) ∧
    (get_transcript c1Remote c1Store "dQw4w9WgXcQ").map
        (fun r => (r.doc, r.err, r.fetches)) =
      .ok (some (encodeDoc [⟨0, "hello"⟩]), Option.none, 1) ∧
    encodeDoc [⟨0, "hello"⟩] ≠ Json.arr [] := by
  refine ⟨rfl, rfl, ?_⟩
  simp [encodeDoc, encodeEntry]

/-- Claim C7: on a cache miss whose remote captioning call fails,
`get_transcript` returns an absent document together with an error string
describing the failure, performs exactly the one failed fetch, and writes
nothing to the cache store. -/
theorem get_transcript_remote_failure (remote : String → Except String (List RawEntry))
    (st : Store) (vid e : String)
    (h1 : st vid = Option.none) (h2 : remote vid = .error e) :
    get_transcript remote st vid = .ok ⟨st, Option.none, some ("Error: " ++ e), 1⟩ := by
  simp [get_transcript, load_transcript, fetch_remote, h1, h2]

theorem get_transcript_remote_failure_witness :
    get_transcript (fun _ => .error "no captions") (fun _ => Option.none) "xyz" =
      .ok ⟨(fun _ => Option.none), Option.none, some ("Error: " ++ "no captions"), 1⟩ :=
  get_transcript_remote_failure _ _ _ _ rfl rfl

theorem renderSeconds_natCast (n : Nat) :
    renderSeconds ((n : Nat) : Int) = clockRenderSpec n := by
  unfold renderSeconds clockRenderSpec
  have e1 : ((n : Int) / 3600) = ((n / 3600 : Nat) : Int) := by omega
  have e2 : (((n : Int) % 3600) / 60).toNat = n % 3600 / 60 := by omega
  have e3 : ((n : Int) % 60).toNat = n % 60 := by omega
  by_cases hn : 3600 ≤ n
  · rw [if_pos (by omega : (0:Int) < (n : Int) / 3600), if_pos hn, e1, e2, e3]
    rfl
  · rw [if_neg (by omega : ¬ (0:Int) < (n : Int) / 3600), if_neg hn, e2, e3]
    have e4 : n % 3600 / 60 = n / 60 := by omega
    rw [e4]

theorem parseDecimal_1e3 : parseDecimal "1e3" = some (PyFloat.finite 1000) := by
  have h1 : parseDecimal "1e3" =
      (parseParts ['1', 'e', '3']).map (fun p => overflowCheck (partsVal p)) := rfl
  have h2 : parseParts ['1', 'e', '3'] = some ⟨['1'], [], 3⟩ := by decide
  have h3 : partsVal ⟨['1'], [], 3⟩ = 1000 := by
    have d1 : digitsVal ['1'] = 1 := rfl
    have d0 : digitsVal ([] : List Char) = 0 := rfl
    have ht : ((3 : Int)).toNat = 3 := rfl
    norm_num [partsVal, d1, d0, ht]
  rw [h1, h2, Option.map_some', h3]
  norm_num [overflowCheck, dblOverflow]

theorem parseDecimal_1u0 : parseDecimal "1_0" = some (PyFloat.finite 10) := by
  have h1 : parseDecimal "1_0" =
      (parseParts ['1', '_', '0']).map (fun p => overflowCheck (partsVal p)) := rfl
  have h2 : parseParts ['1', '_', '0'] = some ⟨['1', '0'], [], 0⟩ := by decide
  have h3 : partsVal ⟨['1', '0'], [], 0⟩ = 10 := by
    have d1 : digitsVal ['1', '0'] = 10 := rfl
    have d0 : digitsVal ([] : List Char) = 0 := rfl
    have ht : ((0 : Int)).toNat = 0 := rfl
    norm_num [partsVal, d1, d0, ht]
  rw [h1, h2, Option.map_some', h3]
  norm_num [overflowCheck, dblOverflow]

/-- Claim C4 is false on its totality part: the string `"inf"` is a
non-negative numeric input (Python `float("inf")` succeeds), yet
`format_time` neither renders a clock string nor returns `"N/A"` — the
uncaught `OverflowError` from `int(float("inf"))` makes it fail. -/
theorem format_time_inf_overflow :
    pyFloat? (.str "inf") = some PyFloat.inf ∧
    format_time (.str "inf") =
      .error "OverflowError: cannot convert float infinity to integer" ∧
    ∀ s : String, format_time (.str "inf") ≠ .ok s := by
  refine ⟨by decide, rfl, ?_⟩
  intro s h
  rw [show format_time (.str "inf") =
    .error "OverflowError: cannot convert float infinity to integer" from rfl] at h
  exact Except.noConfusion h

/-- Claim C4 (amended): for every input converting to a finite non-negative
float, `format_time` renders the truncated duration in the spec clock shape —
`H:MM:SS` with unpadded hours when at least one hour, zero-padded `MM:SS`
otherwise — with `0`, `65`, `3605` as in the spec examples and with
exponent / underscore literals (`"1e3"` → `16:40`, `"1_0"` → `00:10`); every
non-numeric or missing input, and NaN, yields the literal marker `"N/A"`
rather than failing; an input converting to an infinite float, however,
raises an uncaught `OverflowError` instead of returning anything. -/
theorem format_time_spec :
    (∀ (v : PyVal) (q : Rat), pyFloat? v = some (.finite q) → 0 ≤ q →
        format_time v = .ok (clockRenderSpec (⌊q⌋).toNat)) ∧
    (∀ v : PyVal, pyFloat? v = Option.none → format_time v = .ok "N/A") ∧
    (∀ v : PyVal, pyFloat? v = some PyFloat.nan → format_time v = .ok "N/A") ∧
    (∀ v : PyVal, pyFloat? v = some PyFloat.inf ∨ pyFloat? v = some PyFloat.negInf →
        format_time v =
          .error "OverflowError: cannot convert float infinity to integer") ∧
    format_time (.num 0) = .ok "00:00" ∧
    format_time (.num 65) = .ok "01:05" ∧
    format_time (.num 3605) = .ok "1:00:05" ∧
    format_time (.str "1e3") = .ok "16:40" ∧
    format_time (.str "1_0") = .ok "00:10" ∧
    format_time (.str "oops") = .ok "N/A" ∧
    format_time .noneV = .ok "N/A" := by
  refine ⟨?_, ?_, ?_, ?_, rfl, rfl, rfl, ?_, ?_, rfl, rfl⟩
  · intro v q h hq
    have h0 : format_time v = .ok (renderSeconds (pyTrunc q)) := by
      unfold format_time
      rw [h]
    have h1 : pyTrunc q = ⌊q⌋ := by
      unfold pyTrunc
      rw [if_pos hq]
    have h2 : (0:Int) ≤ ⌊q⌋ := Int.floor_nonneg.mpr hq
    obtain ⟨m, hm⟩ : ∃ m : Nat, ⌊q⌋ = (m : Int) :=
      ⟨⌊q⌋.toNat, (Int.toNat_of_nonneg h2).symm⟩
    have h4 : ((m : Int)).toNat = m := by omega
    rw [h0, h1, hm, h4, renderSeconds_natCast]
  · intro v h
    unfold format_time
    rw [h]
  · intro v h
    unfold format_time
    rw [h]
  · intro v h
    rcases h with h | h <;> unfold format_time <;> rw [h]
  · have hp : pyFloat? (.str "1e3") = some (PyFloat.finite 1000) := parseDecimal_1e3
    unfold format_time
    rw [hp]
    exact congrArg Except.ok (by decide)
  · have hp : pyFloat? (.str "1_0") = some (PyFloat.finite 10) := parseDecimal_1u0
    unfold format_time
    rw [hp]
    exact congrArg Except.ok (by decide)

theorem format_time_spec_witness :
    format_time (.num 125) = .ok (clockRenderSpec (⌊(125 : Rat)⌋).toNat) ∧
    format_time (.str "banana") = .ok "N/A" ∧
    format_time (.str "nan") = .ok "N/A" ∧
    format_time (.str "-Infinity") =
      .error "OverflowError: cannot convert float infinity to integer" :=
  ⟨format_time_spec.1 (.num 125) 125 rfl (by norm_num),
   format_time_spec.2.1 (.str "banana") (by decide),
   format_time_spec.2.2.1 (.str "nan") (by decide),
   format_time_spec.2.2.2.1 (.str "-Infinity") (Or.inr (by decide))⟩

theorem take_app_of_len {tok : List Char} (suf : List Char) (h : tok.length = 11) :
    (tok ++ suf).take 11 = tok := by
  rw [← h]
  exact List.take_left tok suf

theorem tryTok_some {rest tok : List Char} (h : tryTok rest = some tok) :
    tokOk tok ∧ rest = tok ++ rest.drop 11 := by
  unfold tryTok at h
  by_cases hc : (rest.take 11).length = 11 ∧ (rest.take 11).all isTokenChar
  · rw [if_pos hc] at h
    injection h with h1
    subst h1
    exact ⟨⟨hc.1, hc.2⟩, (List.take_append_drop 11 rest).symm⟩
  · rw [if_neg hc] at h
    cases h

theorem tryTok_complete {tok : List Char} (suf : List Char) (h : tokOk tok) :
    tryTok (tok ++ suf) = some tok := by
  unfold tryTok
  rw [take_app_of_len suf h.1]
  rw [if_pos ⟨h.1, h.2⟩]

theorem matchAt_some {l tok : List Char} (h : matchAt l = some tok) :
    tokOk tok ∧ ∃ suf, l = 'v' :: '=' :: (tok ++ suf) ∨ l = '/' :: (tok ++ suf) := by
  cases l with
  | nil => cases h
  | cons c tl =>
    simp only [matchAt] at h
    by_cases h1 : c = 'v' ∧ tl.head? = some '='
    · rw [if_pos h1] at h
      obtain ⟨hv, hh⟩ := h1
      cases tl with
      | nil => simp at hh
      | cons d tl' =>
        have hd : d = '=' := by injection (hh : some d = some '=')
        obtain ⟨hok, hre⟩ := tryTok_some (h : tryTok tl' = some tok)
        subst hv
        subst hd
        exact ⟨hok, tl'.drop 11, Or.inl (congrArg (fun x => 'v' :: '=' :: x) hre)⟩
    · rw [if_neg h1] at h
      by_cases h2 : c = '/'
      · rw [if_pos h2] at h
        obtain ⟨hok, hre⟩ := tryTok_some h
        subst h2
        exact ⟨hok, tl.drop 11, Or.inr (congrArg (fun x => '/' :: x) hre)⟩
      · rw [if_neg h2] at h
        cases h

theorem Qual_cons {c : Char} {l tok : List Char} (h : Qual l tok) : Qual (c :: l) tok := by
  obtain ⟨hok, pre, suf, hd⟩ := h
  exact ⟨hok, c :: pre, suf, by rcases hd with h | h <;> simp [h]⟩

theorem searchFrom_some : ∀ {l tok : List Char}, searchFrom l = some tok → Qual l tok := by
  intro l
  induction l with
  | nil => intro tok h; cases h
  | cons c tl ih =>
    intro tok h
    unfold searchFrom at h
    cases hm : matchAt (c :: tl) with
    | some t =>
      rw [hm] at h
      have h2 : t = tok := by injection (h : some t = some tok)
      subst h2
      obtain ⟨hok, suf, hd⟩ := matchAt_some hm
      exact ⟨hok, [], suf, by simpa using hd⟩
    | none =>
      rw [hm] at h
      exact Qual_cons (ih (h : searchFrom tl = some tok))

theorem matchAt_vEq {tok suf : List Char} (h : tokOk tok) :
    matchAt ('v' :: '=' :: (tok ++ suf)) = some tok := by
  simp [matchAt, tryTok_complete suf h]

theorem matchAt_slash {tok suf : List Char} (h : tokOk tok) :
    matchAt ('/' :: (tok ++ suf)) = some tok := by
  simp [matchAt, tryTok_complete suf h]

theorem searchFrom_complete :
    ∀ (pre tok suf l : List Char), tokOk tok →
      (l = pre ++ 'v' :: '=' :: (tok ++ suf) ∨ l = pre ++ '/' :: (tok ++ suf)) →
      ∃ t', searchFrom l = some t' := by
  intro pre
  induction pre with
  | nil =>
    intro tok suf l hok hd
    rcases hd with rfl | rfl
    · exact ⟨tok, by simp [searchFrom, matchAt_vEq hok]⟩
    · exact ⟨tok, by simp [searchFrom, matchAt_slash hok]⟩
  | cons c pre' ih =>
    intro tok suf l hok hd
    have hd2 : l = c :: (pre' ++ 'v' :: '=' :: (tok ++ suf)) ∨
        l = c :: (pre' ++ '/' :: (tok ++ suf)) := by
      rcases hd with rfl | rfl <;> simp
    rcases hd2 with rfl | rfl
    · cases hm : matchAt (c :: (pre' ++ 'v' :: '=' :: (tok ++ suf))) with
      | some t => exact ⟨t, by simp [searchFrom, hm]⟩
      | none =>
        obtain ⟨t', ht'⟩ := ih tok suf _ hok (Or.inl rfl)
        exact ⟨t', by simp [searchFrom, hm, ht']⟩
    · cases hm : matchAt (c :: (pre' ++ '/' :: (tok ++ suf))) with
      | some t => exact ⟨t, by simp [searchFrom, hm]⟩
      | none =>
        obtain ⟨t', ht'⟩ := ih tok suf _ hok (Or.inr rfl)
        exact ⟨t', by simp [searchFrom, hm, ht']⟩

/-- Claim C5: whenever the input string contains an 11-character token of
letters, digits, underscore or hyphen immediately after `v=` or after `/`,
`extract_video_id` returns exactly such a token (the first regex match); and
it returns the missing-value signal precisely when the string contains no
such token. -/
theorem extract_video_id_spec (s : String) :
    ((∃ tok, Qual s.toList tok) →
      ∃ tok, extract_video_id s = some (String.mk tok) ∧ Qual s.toList tok) ∧
    (extract_video_id s = Option.none ↔ ¬ ∃ tok, Qual s.toList tok) := by
  constructor
  · rintro ⟨tok, hok, pre, suf, hd⟩
    obtain ⟨t', ht'⟩ := searchFrom_complete pre tok suf s.toList hok hd
    refine ⟨t', ?_, searchFrom_some ht'⟩
    unfold extract_video_id
    rw [ht']
    rfl
  · constructor
    · intro h
      rintro ⟨tok, hok, pre, suf, hd⟩
      obtain ⟨t', ht'⟩ := searchFrom_complete pre tok suf s.toList hok hd
      unfold extract_video_id at h
      rw [ht'] at h
      simp at h
    · intro h
      cases hm : searchFrom s.toList with
      | none =>
        unfold extract_video_id
        rw [hm]
        rfl
      | some t => exact absurd ⟨t, searchFrom_some hm⟩ h

theorem extract_video_id_spec_witness :
    (∃ tok, extract_video_id "https://youtu.be/dQw4w9WgXcQ" = some (String.mk tok) ∧
      Qual ("https://youtu.be/dQw4w9WgXcQ").toList tok) ∧
    ¬ ∃ tok, Qual ("not a url").toList tok :=
  ⟨(extract_video_id_spec "https://youtu.be/dQw4w9WgXcQ").1
      ⟨("dQw4w9WgXcQ").toList, ⟨by decide, by decide⟩, ("https://youtu.be").toList, [],
        Or.inr (by decide)⟩,
   (extract_video_id_spec "not a url").2.mp (by decide)⟩

theorem containsInOrder_append_left (a s : String) (xs : List String)
    (h : containsInOrder s xs) : containsInOrder (a ++ s) xs := by
  cases xs with
  | nil => trivial
  | cons x xs' =>
    simp only [containsInOrder] at h ⊢
    obtain ⟨pre, rest, he, hc⟩ := h
    exact ⟨a ++ pre, rest, by rw [he]; simp [String.append_assoc], hc⟩

theorem containsInOrder_joinLines : ∀ (xs : List String) (suf : String),
    containsInOrder (joinLines xs ++ suf) xs := by
  intro xs
  induction xs with
  | nil => intro suf; trivial
  | cons x xs' ih =>
    intro suf
    cases xs' with
    | nil =>
      simp only [containsInOrder]
      exact ⟨"", suf, by simp [joinLines], trivial⟩
    | cons y ys =>
      simp only [containsInOrder]
      refine ⟨"", "\n" ++ (joinLines (y :: ys) ++ suf), ?_, ?_⟩
      · simp [joinLines, String.append_assoc]
      · exact containsInOrder_append_left "\n" _ _ (ih suf)

/-- Claim C9: the prompt embeds the transcript block verbatim inside the
fixed instruction template, the block is one newline-joined line
`[formatted-start] text` per caption entry (where the formatted start is
exactly what `format_time` returns on the entry start, a call that cannot
raise on a number), and consequently every entry line (hence every entry
text) occurs in the prompt verbatim and in the original caption order. -/
theorem build_prompt_contains_lines (vid : String) (t : List CaptionEntry) :
    (∀ q : Rat, format_time (.num q) = .ok (format_time_num q)) ∧
    (∃ pre suf, build_prompt vid t = pre ++ transcript_formatted t ++ suf) ∧
    transcript_formatted t =
      joinLines (t.map (fun e => "[" ++ format_time_num e.start ++ "] " ++ e.text)) ∧
    containsInOrder (build_prompt vid t)
      (t.map (fun e => "[" ++ format_time_num e.start ++ "] " ++ e.text)) := by
  refine ⟨fun q => rfl,
    ⟨promptPart1 ++ vid ++ promptPart2 ++ lengthDisplay t ++ promptPart3, promptPart4,
      by simp [build_prompt, String.append_assoc]⟩, rfl, ?_⟩
  have h := containsInOrder_joinLines
    (t.map (fun e => "[" ++ format_time_num e.start ++ "] " ++ e.text)) promptPart4
  have h2 := containsInOrder_append_left
    (promptPart1 ++ vid ++ promptPart2 ++ lengthDisplay t ++ promptPart3) _ _ h
  have he : build_prompt vid t =
      (promptPart1 ++ vid ++ promptPart2 ++ lengthDisplay t ++ promptPart3) ++
        (joinLines (t.map (fun e => "[" ++ format_time_num e.start ++ "] " ++ e.text)) ++
          promptPart4) := by
    simp [build_prompt, transcript_formatted, String.append_assoc]
  rw [he]
  exact h2

/-- A full `AdAnalysisResult`-shaped model response whose time fields are raw
numeric seconds. -/
def c2Json : Json :=
  .obj [("product_name", .str "Acme"), ("start_time", .num 125), ("end_time", .num 130),
        ("overall_score", .num 7), ("overall_summary", .str "fine"),
        ("ad_naturalness", .obj [("score", .num 7), ("explanation", .str "a")]),
        ("persuasiveness", .obj [("score", .num 6), ("explanation", .str "b")]),
        ("trustworthiness", .obj [("score", .num 8), ("explanation", .str "c")]),
        ("ad_length_placement", .obj [("score", .num 5), ("explanation", .str "d")]),
        ("engagement", .obj [("score", .num 7), ("explanation", .str "e")])]

/-- Claim C2 is false as stated: this response decodes to valid JSON with all
required keys and a numeric `start_time` of 125 seconds, yet the parser
returns `start_time` as the raw number, not the normalized clock string
`"02:05"` that `format_time` would produce. -/
theorem numeric_times_not_normalized :
    hasAllRequired c2Json = true ∧
    parse_response (.json c2Json) = some c2Json ∧
    jsonGet c2Json "start_time" = some (.num 125) ∧
    format_time (.num 125) = .ok "02:05" ∧
    Json.num 125 ≠ Json.str "02:05" :=
  ⟨rfl, rfl, rfl, rfl, fun h => Json.noConfusion h⟩

/-- Claim C2 (amended): numeric `start_time` / `end_time` fields in a decoded
model response are passed through unchanged — the parser applies no
TimeFormatter normalization. -/
theorem parse_response_times_passthrough :
    (∀ (fs : List (String × Json)) (q : Rat), getField? fs "start_time" = some (.num q) →
      (parse_response (.json (.obj fs))).bind (fun j => jsonGet j "start_time") =
        some (Json.num q)) ∧
    (∀ (fs : List (String × Json)) (q : Rat), getField? fs "end_time" = some (.num q) →
      (parse_response (.json (.obj fs))).bind (fun j => jsonGet j "end_time") =
        some (Json.num q)) := by
  constructor <;> intro fs q h <;> simp [parse_response, jsonGet, h]

theorem parse_response_times_passthrough_witness :
    (parse_response (.json (.obj [("start_time", Json.num 125)]))).bind
      (fun j => jsonGet j "start_time") = some (Json.num 125) :=
  parse_response_times_passthrough.1 [("start_time", Json.num 125)] 125 rfl

/-- Claim C8 is false as stated: the empty JSON object is missing every
required `AdAnalysisResult` key, yet the parser returns it as a successful
result instead of surfacing an incompleteness error. -/
theorem missing_keys_passed_through :
    hasAllRequired (Json.obj []) = false ∧
    parse_response (.json (Json.obj [])) = some (Json.obj []) ∧
    analyze_ad_quality (fun _ => .json (Json.obj [])) [⟨0, "hi"⟩] "vid0" =
      some (Json.obj []) :=
  ⟨rfl, rfl, rfl⟩

/-- Claim C8 (amended): the parser returns any successfully decoded JSON
value as-is, performing no required-key validation; incomplete structures are
returned, not rejected (missing keys only surface later, in the rendering
code outside `analyze_ad_quality`). -/
theorem analyze_ad_quality_returns_decoded (j : Json) (t : List CaptionEntry)
    (vid : String) (h : t ≠ []) :
    analyze_ad_quality (fun _ => .json j) t vid = some j := by
  have hne : t.isEmpty = false := by
    cases t with
    | nil => exact absurd rfl h
    | cons a b => rfl
  simp [analyze_ad_quality, hne, parse_response]

theorem analyze_ad_quality_returns_decoded_witness :
    analyze_ad_quality (fun _ => .json (Json.obj [])) [⟨0, "hi"⟩] "vid1" =
      some (Json.obj []) :=
  analyze_ad_quality_returns_decoded (Json.obj []) [⟨0, "hi"⟩] "vid1" (by simp)

/-- Claim C10 (amended): the metadata lookup returns the placeholder pair on
any non-200 response, and on a 200 JSON-object response whose `items` key is
absent or maps to an empty list; it is not, however, exception-free — see
the companion counterexample for a 200 response on which it raises. -/
theorem get_video_details_placeholders :
    (∀ resp : HttpResponse, resp.status ≠ 200 →
      get_video_details resp = .ok (.str "Unknown Title", .str "Unknown Channel")) ∧
    (∀ fs : List (String × Json), getField? fs "items" = Option.none →
      get_video_details ⟨200, .wellFormed (.obj fs)⟩ =
        .ok (.str "Unknown Title", .str "Unknown Channel")) ∧
    (∀ fs : List (String × Json), getField? fs "items" = some (.arr []) →
      get_video_details ⟨200, .wellFormed (.obj fs)⟩ =
        .ok (.str "Unknown Title", .str "Unknown Channel")) := by
  refine ⟨?_, ?_, ?_⟩
  · intro resp h
    unfold get_video_details
    rw [if_neg h]
  · intro fs h
    simp [get_video_details, pyIn, h]
  · intro fs h
    simp [get_video_details, pyIn, pySubscript, pyLen, h]

theorem get_video_details_placeholders_witness :
    get_video_details ⟨404, .malformed "gone"⟩ =
      .ok (.str "Unknown Title", .str "Unknown Channel") ∧
    get_video_details ⟨200, .wellFormed (.obj [("kind", Json.null)])⟩ =
      .ok (.str "Unknown Title", .str "Unknown Channel") ∧
    get_video_details ⟨200, .wellFormed (.obj [("items", Json.arr [])])⟩ =
      .ok (.str "Unknown Title", .str "Unknown Channel") :=
  ⟨get_video_details_placeholders.1 ⟨404, .malformed "gone"⟩ (by decide),
   get_video_details_placeholders.2.1 [("kind", Json.null)] rfl,
   get_video_details_placeholders.2.2 [("items", Json.arr [])] rfl⟩

/-- Claim C10 is false on its never-raises part: a 200 response whose `items`
list is non-empty but whose first element has no `snippet` field makes the
lookup raise a `KeyError` rather than degrade to the placeholder pair. -/
theorem get_video_details_raises_on_missing_snippet :
    get_video_details ⟨200, .wellFormed (.obj [("items", .arr [Json.obj []])])⟩ =
      .error "KeyError: snippet" := rfl
